import Mathlib

/-
Verification of the report-parsing / season-aggregation / ranking pipeline
of the college-football simulation repository (src/main.py).

The embedding models the raw report text as a list of lines (the Python code
reads a file into a string and works line-wise with MULTILINE regexes over
the newline-separated content), decimal numbers from the reference CSVs as
exact rationals, and Python exceptions as the Except monad.  Team-level
box-score fields that no claim references (first downs, down efficiency,
yardage splits, penalties, time of possession, ...) are omitted from the
Game record; all fields referenced by a claim are carried through exactly
as the source computes them.
-/

namespace CFB

/-! ### Reference data (Meta/teams.csv, read_teams_file) -/

/-- One row of the teams reference table, as produced by read_teams_file.
Only the columns used by the modelled pipeline slice are carried.
initialRankingPoints is a float in the CSV; it is embedded as an exact
rational. -/
structure TeamRec where
  id : String
  whatifsportsName : String
  conferenceID : String
  initialRankingPoints : ℚ
  kickReturnerName : String
  puntReturnerName : String
  deriving DecidableEq, Repr

/-- TeamInfo[TeamInfo[id] == t].values[0]: first row whose id matches. -/
def lookupTeam? (ti : List TeamRec) (t : String) : Option TeamRec :=
  ti.find? (fun rec => rec.id == t)

/-- Membership test used by the FCS row filters:
TeamInfo[TeamInfo[conferenceID] == FCS][id] contains the team name. -/
def isFCSTeam (ti : List TeamRec) (t : String) : Bool :=
  ti.any (fun rec => rec.conferenceID == "FCS" && rec.id == t)

/-! ### Box-score parser (parse_whatifsports_box_score) -/

/-- Number of lines of the content that consist exactly of the given label,
the embedding of len(re.findall(r'^Label$', content, re.MULTILINE)). -/
def countExactLines (lines : List String) (label : String) : Nat :=
  (lines.filter (fun l => l == label)).length

/-- The five section-label cardinality assertions at the top of
parse_whatifsports_box_score (each label must occur exactly twice),
performed in source order before any field is extracted. -/
def assertBoxScoreSections (lines : List String) : Except String Unit :=
  if countExactLines lines "Rushing" ≠ 2 then
    .error "Content does not contain 2 lines starting with Rushing"
  else if countExactLines lines "Receiving" ≠ 2 then
    .error "Content does not contain 2 lines starting with Receiving"
  else if countExactLines lines "Passing" ≠ 2 then
    .error "Content does not contain 2 lines starting with Passing"
  else if countExactLines lines "Defensive" ≠ 2 then
    .error "Content does not contain 2 lines starting with Defensive"
  else if countExactLines lines "Field Goals" ≠ 2 then
    .error "Content does not contain 2 lines starting with Field Goals"
  else
    .ok ()

/-- Python str.split() with no argument: split on whitespace runs,
dropping empty pieces. -/
def pyWords (s : String) : List String :=
  (s.split (fun c => c.isWhitespace)).filter (fun w => w ≠ "")

/-- int(s) for a whitespace-free token; non-numeric tokens raise ValueError. -/
def parseIntTok (s : String) : Except String Int :=
  match s.toInt? with
  | some n => .ok n
  | none => .error ("invalid literal for int: " ++ s)

/-- First line whose text starts with "Final -" (the scoring header),
together with the lines after it; none when no such line exists. -/
def splitAtFinalLine : List String → Option (String × List String)
  | [] => none
  | l :: rest =>
    if l.startsWith "Final -" then some (l, rest) else splitAtFinalLine rest

/-- Substring test: s contains pat (pat nonempty) iff splitting on pat
yields more than one piece. -/
def strContains (s pat : String) : Bool :=
  (s.splitOn pat).length ≠ 1

/-- First nonempty line of the list and the lines after it; the regex
[element r'[\r\n]+([^\r\n]+)'] skips blank lines before the capture. -/
def firstNonemptyLine : List String → Option (String × List String)
  | [] => none
  | l :: rest => if l ≠ "" then some (l, rest) else firstNonemptyLine rest

/-- line.split()[-1] parsed as int; an all-whitespace line raises IndexError. -/
def parseLastTokenInt (l : String) : Except String Int :=
  match (pyWords l).getLast? with
  | none => .error "list index out of range"
  | some tok => parseIntTok tok

/-- The fields of the box score extracted before the per-player sections:
team years/names from line 1, the overtime flag from the "Final -" line and
the two final scores from the two lines following it. -/
structure BoxHeaderData where
  awayTeamYear : String
  awayTeamName : String
  homeTeamYear : String
  wasOvertime : Bool
  awayTeamScore : Int
  homeTeamScore : Int
  deriving DecidableEq, Repr

/-- Line 1 parsing: split on " at ", then each side on single spaces; the
leading token is the year, the away name is the re-joined remainder.
A missing " at " separator raises IndexError on teams[1]. -/
def parseFirstLineTeams (lines : List String) : Except String (String × String × String) :=
  let first := lines.headD ""
  let teams := first.splitOn " at "
  let awayParts := (teams.headD "").splitOn " "
  match teams.get? 1 with
  | none => .error "list index out of range"
  | some homeSide =>
    .ok (awayParts.headD "", " ".intercalate (awayParts.drop 1),
         (homeSide.splitOn " ").headD "")

/-- The away and home final scores: the last tokens of the first two
nonempty lines following the "Final -" line; a missing anchor or a
non-numeric token raises. -/
def parseFinalScores (lines : List String) : Except String (Int × Int) :=
  match splitAtFinalLine lines with
  | none => .error "NoneType object has no attribute group"
  | some (_, rest) =>
    match firstNonemptyLine rest with
    | none => .error "NoneType object has no attribute group"
    | some (l1, rest1) =>
      match firstNonemptyLine rest1 with
      | none => .error "NoneType object has no attribute group"
      | some (l2, _) => do
        let a ← parseLastTokenInt l1
        let h ← parseLastTokenInt l2
        .ok (a, h)

/-- parse_whatifsports_box_score, restricted to the fields extracted before
the per-player sections: the five section-cardinality assertions run first,
then the line-1 team fields, the overtime flag and the final scores are
extracted.  (The remaining extractions follow the same anchored line-search
pattern and feed the BoxScore record consumed by read_game_files below.) -/
def parse_whatifsports_box_score (lines : List String) : Except String BoxHeaderData := do
  assertBoxScoreSections lines
  let (ay, an, hy) ← parseFirstLineTeams lines
  let wasOT :=
    match splitAtFinalLine lines with
    | some (l, _) => strContains l "OT"
    | none => false
  let (as_, hs) ← parseFinalScores lines
  .ok ⟨ay, an, hy, wasOT, as_, hs⟩

/-! ### Report records (read_game_files) -/

/-- The box_score_data dictionary returned by parse_whatifsports_box_score,
restricted to the entries that read_game_files consumes in the modelled
slice.  The per-player rushing lists correspond to playerAwayRushingStats /
playerHomeRushingStats (the other five per-player categories are filled,
attributed and FCS-filtered by the identical code pattern). -/
structure BoxRushStat where
  playerName : String
  carries : Int
  rushingYards : Int
  twentyPlusYardCarries : Int
  longestRush : Int
  rushingTouchdowns : Int
  deriving DecidableEq, Repr

structure BoxScore where
  awayTeamScore : Int
  homeTeamScore : Int
  wasOvertime : Bool
  awayTeamKickReturns : Int
  awayTeamKickReturnYards : Int
  homeTeamKickReturns : Int
  homeTeamKickReturnYards : Int
  awayTeamPuntReturns : Int
  awayTeamPuntReturnYards : Int
  homeTeamPuntReturns : Int
  homeTeamPuntReturnYards : Int
  playerOfTheGame : String
  playerOfTheGameTeamName : String
  playerAwayRushingStats : List BoxRushStat
  playerHomeRushingStats : List BoxRushStat
  deriving DecidableEq, Repr

/-- The header fields of one report after regex extraction and matchup
splitting (the " @ " / " vs " split that also fixes the neutral-site flag,
and the date already validated as MM/DD/YYYY and reformatted as YYYYMMDD by
strftime; these steps are upstream of the modelled validation slice). -/
structure ReportFields where
  awayTeam : String
  homeTeam : String
  isNeutralSiteGame : Bool
  significance : String
  bowlName : String
  dateCompact : String
  week : String
  gameDescription : String
  deriving DecidableEq, Repr

/-- One row of the games dataframe, restricted to the columns the claims
reference (the remaining ~40 summed box-score columns are carried by the
source in the same record but are not referenced by any claim). -/
structure Game where
  gameID : String
  awayTeamName : String
  homeTeamName : String
  isNeutralSiteGame : Bool
  gameSignificance : String
  gameDate : String
  weekPlayed : Nat
  winningTeamName : String
  losingTeamName : String
  awayTeamScore : Int
  homeTeamScore : Int
  winningTeamScore : Int
  losingTeamScore : Int
  wasOvertime : Bool
  awayTeamKickReturns : Int
  homeTeamKickReturns : Int
  awayTeamKickReturnYards : Int
  homeTeamKickReturnYards : Int
  awayTeamPuntReturns : Int
  homeTeamPuntReturns : Int
  awayTeamPuntReturnYards : Int
  homeTeamPuntReturnYards : Int
  awayTeamKickReturnTouchdowns : Int
  homeTeamKickReturnTouchdowns : Int
  awayTeamPuntReturnTouchdowns : Int
  homeTeamPuntReturnTouchdowns : Int
  playerOfTheGame : String
  playerOfTheGameTeamName : String
  gameDescription : String
  deriving DecidableEq, Repr, Inhabited

/-- One row of the player_rushing_stats dataframe. -/
structure RushRow where
  gameID : String
  playerName : String
  teamName : String
  carries : Int
  rushingYards : Int
  twentyPlusYardCarries : Int
  longestRush : Int
  rushingTouchdowns : Int
  deriving DecidableEq, Repr, Inhabited

/-- One row of the player_returning_stats dataframe. -/
structure ReturningRow where
  gameID : String
  playerName : String
  teamName : String
  kickReturns : Int
  kickReturnYards : Int
  kickReturnTouchdowns : Int
  puntReturns : Int
  puntReturnYards : Int
  puntReturnTouchdowns : Int
  deriving DecidableEq, Repr, Inhabited

/-- The accepted_significance list of read_game_files. -/
def accepted_significance : List String :=
  ["non-conference", "conference", "conference championship", "postseason"]

/-- week.isdigit() and int(week): a nonempty all-digit token parsed in
base 10. -/
def pyDigitToNat? (s : String) : Option Nat :=
  if s.data ≠ [] ∧ s.data.all Char.isDigit then
    some (s.data.foldl (fun n c => n * 10 + (c.toNat - 48)) 0)
  else none

/-- Week validation: the token must be all digits and denote a week
in [1, 17]. -/
def validateWeek (w : String) : Except String Nat :=
  match pyDigitToNat? w with
  | some n => if 1 ≤ n ∧ n ≤ 17 then .ok n else .error ("Invalid week value " ++ w)
  | none => .error ("Invalid week value " ++ w)

/-- game_id = away-id + home-id + YYYYMMDD date. -/
def gameIdOf (r : ReportFields) : String :=
  r.awayTeam ++ "_" ++ r.homeTeam ++ "_" ++ r.dateCompact

/-- The returning-stat rows emitted for one team of one game: one combined
row when the designated kick returner and punt returner coincide, otherwise
a kick-return row and a punt-return row each zeroed in the other category.
All return-touchdown fields are the hard-coded 0 placeholders. -/
def mkReturningRowsForTeam (rec : TeamRec) (gid team : String)
    (kr kry pr pry : Int) : List ReturningRow :=
  if rec.kickReturnerName = rec.puntReturnerName then
    [{ gameID := gid, playerName := rec.kickReturnerName, teamName := team,
       kickReturns := kr, kickReturnYards := kry, kickReturnTouchdowns := 0,
       puntReturns := pr, puntReturnYards := pry, puntReturnTouchdowns := 0 }]
  else
    [{ gameID := gid, playerName := rec.kickReturnerName, teamName := team,
       kickReturns := kr, kickReturnYards := kry, kickReturnTouchdowns := 0,
       puntReturns := 0, puntReturnYards := 0, puntReturnTouchdowns := 0 },
     { gameID := gid, playerName := rec.puntReturnerName, teamName := team,
       kickReturns := 0, kickReturnYards := 0, kickReturnTouchdowns := 0,
       puntReturns := pr, puntReturnYards := pry, puntReturnTouchdowns := 0 }]

/-- One parsed box-score rushing entry tagged with the game id and team. -/
def toRushRow (gid team : String) (s : BoxRushStat) : RushRow :=
  { gameID := gid, playerName := s.playerName, teamName := team,
    carries := s.carries, rushingYards := s.rushingYards,
    twentyPlusYardCarries := s.twentyPlusYardCarries,
    longestRush := s.longestRush, rushingTouchdowns := s.rushingTouchdowns }

/-- TeamInfo[TeamInfo[whatifsportsName] == name][id].values[0]. -/
def potgTeamId (ti : List TeamRec) (name : String) : String :=
  (((ti.find? (fun rec => rec.whatifsportsName == name)).map (fun rec => rec.id)).getD "")

/-- The per-report rows produced by one iteration of the read_game_files
loop. -/
structure ReportOutput where
  game : Game
  rushingRows : List RushRow
  returningRows : List ReturningRow
  deriving DecidableEq, Repr, Inhabited

/-- Assembly of the game row and player rows once every validation has
passed.  The winner/loser fields come from the direct score comparison
(the equal-score case has already raised); the four return-touchdown game
columns are the hard-coded 0 placeholders.  The FCS row filter
(df[~df[teamName].isin(FCS ids)]) is applied by the source to the
accumulated dataframe after every append; since it acts row-wise this
equals filtering each report contribution once, as done here. -/
def buildOutput (ti : List TeamRec) (r : ReportFields) (b : BoxScore)
    (aRec hRec : TeamRec) (weekPlayed : Nat) : ReportOutput :=
  let gid := gameIdOf r
  let winAway := b.homeTeamScore < b.awayTeamScore
  { game :=
    { gameID := gid
      awayTeamName := r.awayTeam
      homeTeamName := r.homeTeam
      isNeutralSiteGame := r.isNeutralSiteGame
      gameSignificance := r.significance
      gameDate := r.dateCompact
      weekPlayed := weekPlayed
      winningTeamName := if winAway then r.awayTeam else r.homeTeam
      losingTeamName := if winAway then r.homeTeam else r.awayTeam
      awayTeamScore := b.awayTeamScore
      homeTeamScore := b.homeTeamScore
      winningTeamScore := if winAway then b.awayTeamScore else b.homeTeamScore
      losingTeamScore := if winAway then b.homeTeamScore else b.awayTeamScore
      wasOvertime := b.wasOvertime
      awayTeamKickReturns := b.awayTeamKickReturns
      homeTeamKickReturns := b.homeTeamKickReturns
      awayTeamKickReturnYards := b.awayTeamKickReturnYards
      homeTeamKickReturnYards := b.homeTeamKickReturnYards
      awayTeamPuntReturns := b.awayTeamPuntReturns
      homeTeamPuntReturns := b.homeTeamPuntReturns
      awayTeamPuntReturnYards := b.awayTeamPuntReturnYards
      homeTeamPuntReturnYards := b.homeTeamPuntReturnYards
      awayTeamKickReturnTouchdowns := 0
      homeTeamKickReturnTouchdowns := 0
      awayTeamPuntReturnTouchdowns := 0
      homeTeamPuntReturnTouchdowns := 0
      playerOfTheGame := b.playerOfTheGame
      playerOfTheGameTeamName := potgTeamId ti b.playerOfTheGameTeamName
      gameDescription := r.gameDescription }
    rushingRows :=
      ((b.playerAwayRushingStats.map (toRushRow gid r.awayTeam) ++
        b.playerHomeRushingStats.map (toRushRow gid r.homeTeam)).filter
          (fun row => !(isFCSTeam ti row.teamName)))
    returningRows :=
      ((mkReturningRowsForTeam aRec gid r.awayTeam
          b.awayTeamKickReturns b.awayTeamKickReturnYards
          b.awayTeamPuntReturns b.awayTeamPuntReturnYards ++
        mkReturningRowsForTeam hRec gid r.homeTeam
          b.homeTeamKickReturns b.homeTeamKickReturnYards
          b.homeTeamPuntReturns b.homeTeamPuntReturnYards).filter
          (fun row => !(isFCSTeam ti row.teamName))) }

/-- The validations and assembly performed by one iteration of the
read_game_files loop for one report, in source order: team ids against
reference data, significance against the accepted list, bowl-name
emptiness for non-postseason games, week range, the equal-score tie check
during winner derivation, and the player-of-the-game team-name check; any
failure raises and aborts the run. -/
def processReport (ti : List TeamRec) (r : ReportFields) (b : BoxScore) :
    Except String ReportOutput :=
  match lookupTeam? ti r.awayTeam with
  | none => .error "Invalid team name in matchup"
  | some aRec =>
  match lookupTeam? ti r.homeTeam with
  | none => .error "Invalid team name in matchup"
  | some hRec =>
    if r.significance ∉ accepted_significance then
      .error ("Invalid significance value " ++ r.significance)
    else if r.significance ≠ "postseason" ∧ r.bowlName ≠ "" then
      .error ("Bowl Name " ++ r.bowlName ++ " should be empty for non-postseason games")
    else
      match validateWeek r.week with
      | .error e => .error e
      | .ok weekPlayed =>
        if b.awayTeamScore = b.homeTeamScore then
          .error "away score and home score are equal"
        else if b.playerOfTheGameTeamName ∉ ti.map (fun rec => rec.whatifsportsName) then
          .error ("Invalid player of the game team name " ++ b.playerOfTheGameTeamName)
        else
          .ok (buildOutput ti r b aRec hRec weekPlayed)

/-- All tables returned by read_game_files that the claims reference. -/
structure FilesOutput where
  games : List Game
  rushingRows : List RushRow
  returningRows : List ReturningRow
  deriving DecidableEq, Repr, Inhabited

/-- The read_game_files directory loop: reports are processed one after the
other, any exception aborting the whole run. -/
def processAll (ti : List TeamRec) :
    List (ReportFields × BoxScore) → Except String (List ReportOutput)
  | [] => .ok []
  | rb :: rest => do
    let o ← processReport ti rb.1 rb.2
    let os ← processAll ti rest
    .ok (o :: os)

/-- read_game_files: process every report, then run the final aggregate
validation that every game row has winningTeamScore strictly greater than
losingTeamScore. -/
def read_game_files (ti : List TeamRec) (reports : List (ReportFields × BoxScore)) :
    Except String FilesOutput := do
  let outs ← processAll ti reports
  let games := outs.map (fun o => o.game)
  if games.any (fun g => g.winningTeamScore ≤ g.losingTeamScore) then
    .error "Winning team score must be greater than losing team score for every row in games_df"
  else
    .ok { games := games
          rushingRows := (outs.map (fun o => o.rushingRows)).flatten
          returningRows := (outs.map (fun o => o.returningRows)).flatten }

/-! ### Season aggregation (compile_season_stats) -/

/-- pandas Series.sum over an Int column selection. -/
def intColSum (l : List Int) : Int := l.sum

/-- pandas Series.max over a nonempty Int column selection (every
player/team pair aggregated comes from at least one row). -/
def intColMax (l : List Int) : Int := (l.max?).getD 0

/-- Games[Games[weekPlayed] <= week]: the week cutoff applied to the games
table at the top of compile_season_stats. -/
def gamesUpToWeek (week : Nat) (games : List Game) : List Game :=
  games.filter (fun g => g.weekPlayed ≤ week)

/-- numKickReturnTouchdowns: home KRTD summed over home games plus away
KRTD summed over away games, over the week-limited games table. -/
def numKickReturnTouchdowns (week : Nat) (games : List Game) (t : String) : Int :=
  intColSum (((gamesUpToWeek week games).filter (fun g => g.homeTeamName == t)).map
      (fun g => g.homeTeamKickReturnTouchdowns)) +
  intColSum (((gamesUpToWeek week games).filter (fun g => g.awayTeamName == t)).map
      (fun g => g.awayTeamKickReturnTouchdowns))

/-- numPuntReturnTouchdowns, same shape. -/
def numPuntReturnTouchdowns (week : Nat) (games : List Game) (t : String) : Int :=
  intColSum (((gamesUpToWeek week games).filter (fun g => g.homeTeamName == t)).map
      (fun g => g.homeTeamPuntReturnTouchdowns)) +
  intColSum (((gamesUpToWeek week games).filter (fun g => g.awayTeamName == t)).map
      (fun g => g.awayTeamPuntReturnTouchdowns))

/-- numKickReturnTouchdownsAllowed: opposing KRTD over the games the team
played (away column for home games and vice versa). -/
def numKickReturnTouchdownsAllowed (week : Nat) (games : List Game) (t : String) : Int :=
  intColSum (((gamesUpToWeek week games).filter (fun g => g.homeTeamName == t)).map
      (fun g => g.awayTeamKickReturnTouchdowns)) +
  intColSum (((gamesUpToWeek week games).filter (fun g => g.awayTeamName == t)).map
      (fun g => g.homeTeamKickReturnTouchdowns))

/-- numPuntReturnTouchdownsAllowed, same shape. -/
def numPuntReturnTouchdownsAllowed (week : Nat) (games : List Game) (t : String) : Int :=
  intColSum (((gamesUpToWeek week games).filter (fun g => g.homeTeamName == t)).map
      (fun g => g.awayTeamPuntReturnTouchdowns)) +
  intColSum (((gamesUpToWeek week games).filter (fun g => g.awayTeamName == t)).map
      (fun g => g.homeTeamPuntReturnTouchdowns))

/-- df[[playerName, teamName]].drop_duplicates(): unique player/team pairs
in first-appearance order. -/
def uniquePlayerTeamPairs (pairs : List (String × String)) : List (String × String) :=
  pairs.eraseDups

/-- One row of the PlayerSeasonRushingStats table. -/
structure SeasonRushRow where
  playerName : String
  teamName : String
  carries : Int
  rushingYards : Int
  twentyPlusYardCarries : Int
  longestRush : Int
  rushingTouchdowns : Int
  deriving DecidableEq, Repr, Inhabited

/-- The per-game rushing rows of one player/team pair.  Note that the
source selects from the full PlayerGameRushingStats table: the week cutoff
of compile_season_stats is applied only to the Games dataframe (line 1139),
never to the player game-stat dataframes. -/
def rushRowsOfPair (rows : List RushRow) (p t : String) : List RushRow :=
  rows.filter (fun row => row.playerName == p && row.teamName == t)

/-- The player-season rushing table built by compile_season_stats: one row
per unique player/team pair of the (un-cutoff) per-game table, counters
summed and longestRush maximised over all of that pair's per-game rows. -/
def compileSeasonRushingStats (week : Nat) (games : List Game) (rows : List RushRow) :
    List SeasonRushRow :=
  let _gamesCut := gamesUpToWeek week games
  (uniquePlayerTeamPairs (rows.map (fun row => (row.playerName, row.teamName)))).map
    (fun pt =>
      { playerName := pt.1, teamName := pt.2,
        carries := intColSum ((rushRowsOfPair rows pt.1 pt.2).map (fun row => row.carries)),
        rushingYards := intColSum ((rushRowsOfPair rows pt.1 pt.2).map (fun row => row.rushingYards)),
        twentyPlusYardCarries :=
          intColSum ((rushRowsOfPair rows pt.1 pt.2).map (fun row => row.twentyPlusYardCarries)),
        longestRush := intColMax ((rushRowsOfPair rows pt.1 pt.2).map (fun row => row.longestRush)),
        rushingTouchdowns :=
          intColSum ((rushRowsOfPair rows pt.1 pt.2).map (fun row => row.rushingTouchdowns)) })

/-- One row of the PlayerSeasonReturningStats table. -/
structure SeasonReturningRow where
  playerName : String
  teamName : String
  kickReturns : Int
  kickReturnYards : Int
  kickReturnTouchdowns : Int
  puntReturns : Int
  puntReturnYards : Int
  puntReturnTouchdowns : Int
  deriving DecidableEq, Repr, Inhabited

/-- The per-game returning rows of one player/team pair (again selected
from the full per-game table, with no week cutoff). -/
def returningRowsOfPair (rows : List ReturningRow) (p t : String) : List ReturningRow :=
  rows.filter (fun row => row.playerName == p && row.teamName == t)

/-- The player-season returning table built by compile_season_stats. -/
def compileSeasonReturningStats (rows : List ReturningRow) : List SeasonReturningRow :=
  (uniquePlayerTeamPairs (rows.map (fun row => (row.playerName, row.teamName)))).map
    (fun pt =>
      { playerName := pt.1, teamName := pt.2,
        kickReturns := intColSum ((returningRowsOfPair rows pt.1 pt.2).map (fun row => row.kickReturns)),
        kickReturnYards :=
          intColSum ((returningRowsOfPair rows pt.1 pt.2).map (fun row => row.kickReturnYards)),
        kickReturnTouchdowns :=
          intColSum ((returningRowsOfPair rows pt.1 pt.2).map (fun row => row.kickReturnTouchdowns)),
        puntReturns := intColSum ((returningRowsOfPair rows pt.1 pt.2).map (fun row => row.puntReturns)),
        puntReturnYards :=
          intColSum ((returningRowsOfPair rows pt.1 pt.2).map (fun row => row.puntReturnYards)),
        puntReturnTouchdowns :=
          intColSum ((returningRowsOfPair rows pt.1 pt.2).map (fun row => row.puntReturnTouchdowns)) })

/-- Modelled from the claim wording (C1), for comparison with the code:
a player-season carries total restricted, via the gameID link, to games
whose weekPlayed is at most the cutoff. -/
def carriesUpToWeek (week : Nat) (games : List Game) (rows : List RushRow) (p t : String) : Int :=
  intColSum (((rushRowsOfPair rows p t).filter
      (fun row => games.any (fun g => g.gameID == row.gameID && decide (g.weekPlayed ≤ week)))).map
    (fun row => row.carries))

/-! ### Ranking engine (create_rankings_df, update_ranks_to_have_tied_ranks) -/

/-- Python int() applied to a rational: truncation toward zero
(pandas astype(int) on a float column). -/
def pyInt (q : ℚ) : Int := if 0 ≤ q then ⌊q⌋ else -⌊-q⌋

/-- The average-method rank value from the two counts: entries ranked
ahead of the tie group, and the size of the tie group; the group occupies
positions ahead+1 .. ahead+size, whose average is ahead + (size+1)/2. -/
def avgFromCounts (ahead size : ℕ) : ℚ :=
  (ahead : ℚ) + ((size : ℚ) + 1) / 2

/-- pandas Series.rank(ascending=True) with the default average method:
the rank of value x within column xs is the count of strictly smaller
entries plus the average of the positions occupied by the entries equal
to x. -/
def rankAscAvg (xs : List ℚ) (x : ℚ) : ℚ :=
  avgFromCounts (xs.filter (fun y => y < x)).length (xs.filter (fun y => y = x)).length

/-- pandas Series.rank(ascending=False), average method. -/
def rankDescAvg (xs : List ℚ) (x : ℚ) : ℚ :=
  avgFromCounts (xs.filter (fun y => x < y)).length (xs.filter (fun y => y = x)).length

/-- Modelled from the claim wording (C6), for comparison with the code:
the dense rank of x within xs in descending order, i.e. one plus the
number of distinct values strictly greater than x. -/
def denseRankDesc (xs : List ℚ) (x : ℚ) : Nat :=
  ((xs.filter (fun y => x < y)).eraseDups).length + 1

/-- The rankings_df team list: ids of teams whose conference is not FCS,
in TeamInfo order. -/
def nonFCSTeams (ti : List TeamRec) : List String :=
  (ti.filter (fun rec => rec.conferenceID ≠ "FCS")).map (fun rec => rec.id)

/-- TeamInfo[TeamInfo[id] == x][initialRankingPoints].values[0]. -/
def initialPointsOf (ti : List TeamRec) (t : String) : ℚ :=
  (((ti.find? (fun rec => rec.id == t)).map (fun rec => rec.initialRankingPoints)).getD 0)

/-- The week1 column: initialRankingPoints ranked descending
(rank(ascending=False), average method) and converted by astype(int). -/
def week1Rank (ti : List TeamRec) (t : String) : Int :=
  pyInt (rankDescAvg ((nonFCSTeams ti).map (initialPointsOf ti)) (initialPointsOf ti t))

/-- One row of the ranking-oracle output CSV (columns name, rank,
ranking_points). -/
structure OracleRow where
  name : String
  rank : Int
  ranking_points : ℚ
  deriving DecidableEq, Repr, Inhabited

/-- The row-scanning loop of update_ranks_to_have_tied_ranks, carrying the
current plateau rank and the previous ranking_points value. -/
def updateRanksGo : List OracleRow → Int → Option ℚ → List OracleRow
  | [], _, _ => []
  | r :: rest, cur, prev =>
    if prev = some r.ranking_points then
      { r with rank := cur } :: updateRanksGo rest cur prev
    else
      { r with rank := r.rank } :: updateRanksGo rest r.rank (some r.ranking_points)

/-- update_ranks_to_have_tied_ranks: rows whose ranking_points equal the
previous row's keep the plateau rank; other rows keep their own rank and
start a new plateau (current_rank = 1, previous_points = None initially). -/
def update_ranks_to_have_tied_ranks (rows : List OracleRow) : List OracleRow :=
  updateRanksGo rows 1 none

/-- The oracle rows used for one week of the create_rankings_df loop:
the tie-plateau adjustment is applied only for weeks 2 through 5. -/
def oracleRowsForWeek (oracle : Nat → List OracleRow) (week : Nat) : List OracleRow :=
  if 2 ≤ week ∧ week ≤ 5 then update_ranks_to_have_tied_ranks (oracle week)
  else oracle week

/-- The rank of one team after the merge on teamName (the §4.4 invariant
guarantees every rankings team one oracle row; a missing team would surface
as NaN in the source and is defaulted to 0 here, under that invariant the
default is never consulted). -/
def oracleRankOf (rows : List OracleRow) (t : String) : Int :=
  (((rows.find? (fun row => row.name == t)).map (fun row => row.rank)).getD 0)

/-- week1 * seedWeight + rank * oracleWeight, the blended column value of
one team. -/
def blendVal (week1 : String → Int) (rows : List OracleRow) (ws wo : ℚ) (t : String) : ℚ :=
  (week1 t : ℚ) * ws + (oracleRankOf rows t : ℚ) * wo

/-- The blended column of all rankings teams. -/
def blendCol (teams : List String) (week1 : String → Int) (rows : List OracleRow)
    (ws wo : ℚ) : List ℚ :=
  teams.map (blendVal week1 rows ws wo)

/-- The rank column written for one week of the create_rankings_df loop:
weeks 2-5 blend the week1 seed with the merged oracle rank at the fixed
weight schedule and re-rank ascending (then astype(int)); every other week
(6..17 and the final column, week 18 internally) copies the oracle rank. -/
def weekColumn (teams : List String) (week1 : String → Int) (rows : List OracleRow)
    (week : Nat) (t : String) : Int :=
  if week = 2 then
    pyInt (rankAscAvg (blendCol teams week1 rows (8/10) (2/10))
      (blendVal week1 rows (8/10) (2/10) t))
  else if week = 3 then
    pyInt (rankAscAvg (blendCol teams week1 rows (6/10) (4/10))
      (blendVal week1 rows (6/10) (4/10) t))
  else if week = 4 then
    pyInt (rankAscAvg (blendCol teams week1 rows (4/10) (6/10))
      (blendVal week1 rows (4/10) (6/10) t))
  else if week = 5 then
    pyInt (rankAscAvg (blendCol teams week1 rows (2/10) (8/10))
      (blendVal week1 rows (2/10) (8/10) t))
  else
    oracleRankOf rows t

/-- The loop weeks of create_rankings_df: range(2, 19). -/
def rankingLoopWeeks : List Nat := List.range' 2 17

/-- create_rankings_df: one ranking trajectory per non-FCS team (the week1
seed column followed by the 17 oracle-derived columns week2..week17 and
final), paired with the trace of ranker_program invocations: each loop
iteration runs the external ranker exactly once (os.system, line 1057)
with the argument week-1, synchronously, before the next iteration starts.
The first component is the table, the second the invocation trace in
execution order. -/
def create_rankings_df (ti : List TeamRec) (oracle : Nat → List OracleRow) :
    List (String × List Int) × List Nat :=
  let teams := nonFCSTeams ti
  ((teams.map (fun t =>
      (t, week1Rank ti t ::
          rankingLoopWeeks.map (fun w =>
            weekColumn teams (week1Rank ti) (oracleRowsForWeek oracle w) w t)))),
   rankingLoopWeeks.map (fun w => w - 1))

/-! ### Concrete instances used by the witnesses and counterexamples -/

/-- A reference table with an FCS away team (aaa) and a non-FCS home team
(bbb). -/
def exTI : List TeamRec :=
  [{ id := "aaa", whatifsportsName := "Aaa Wif", conferenceID := "FCS",
     initialRankingPoints := 50, kickReturnerName := "R One", puntReturnerName := "R One" },
   { id := "bbb", whatifsportsName := "Bbb Wif", conferenceID := "ACC",
     initialRankingPoints := 80, kickReturnerName := "K Two", puntReturnerName := "P Two" }]

/-- A reference table with two non-FCS teams; ccc has one combined
returner, bbb has distinct kick and punt returners. -/
def exTI2 : List TeamRec :=
  [{ id := "ccc", whatifsportsName := "Ccc Wif", conferenceID := "B12",
     initialRankingPoints := 60, kickReturnerName := "R Three", puntReturnerName := "R Three" },
   { id := "bbb", whatifsportsName := "Bbb Wif", conferenceID := "ACC",
     initialRankingPoints := 80, kickReturnerName := "K Two", puntReturnerName := "P Two" }]

/-- Four non-FCS teams, three of them tied at 100 preseason ranking
points. -/
def exTI4 : List TeamRec :=
  [{ id := "t1", whatifsportsName := "w1", conferenceID := "ACC",
     initialRankingPoints := 100, kickReturnerName := "K", puntReturnerName := "P" },
   { id := "t2", whatifsportsName := "w2", conferenceID := "ACC",
     initialRankingPoints := 100, kickReturnerName := "K", puntReturnerName := "P" },
   { id := "t3", whatifsportsName := "w3", conferenceID := "ACC",
     initialRankingPoints := 100, kickReturnerName := "K", puntReturnerName := "P" },
   { id := "t4", whatifsportsName := "w4", conferenceID := "ACC",
     initialRankingPoints := 95, kickReturnerName := "K", puntReturnerName := "P" }]

def exReport : ReportFields :=
  { awayTeam := "aaa", homeTeam := "bbb", isNeutralSiteGame := false,
    significance := "non-conference", bowlName := "", dateCompact := "20240901",
    week := "2", gameDescription := "desc" }

/-- The same report header with the away side played by the non-FCS team
ccc. -/
def exReport2 : ReportFields :=
  { exReport with awayTeam := "ccc" }

/-- The header with the hyphenated significance spelling of the spec. -/
def exReportCC : ReportFields :=
  { exReport with significance := "conference-championship" }

/-- The header with a significance value outside the accepted set. -/
def exReportBadSig : ReportFields :=
  { exReport with significance := "playoff" }

def exBox : BoxScore :=
  { awayTeamScore := 10, homeTeamScore := 20, wasOvertime := false,
    awayTeamKickReturns := 3, awayTeamKickReturnYards := 60,
    homeTeamKickReturns := 2, homeTeamKickReturnYards := 40,
    awayTeamPuntReturns := 1, awayTeamPuntReturnYards := 5,
    homeTeamPuntReturns := 2, homeTeamPuntReturnYards := 12,
    playerOfTheGame := "K Two", playerOfTheGameTeamName := "Bbb Wif",
    playerAwayRushingStats := [], playerHomeRushingStats := [] }

/-- The same box score with a 10-10 tie. -/
def exBoxTied : BoxScore :=
  { exBox with homeTeamScore := 10 }

def exReports : List (ReportFields × BoxScore) := [(exReport, exBox)]

/-- The tables read_game_files returns on the one-report season above. -/
def exFilesOut : FilesOutput :=
  match read_game_files exTI exReports with
  | .ok o => o
  | .error _ => { games := [], rushingRows := [], returningRows := [] }

/-- The rows the single report of exTI2/exReport2 produces. -/
def exOut2 : ReportOutput :=
  match processReport exTI2 exReport2 exBox with
  | .ok o => o
  | .error _ => default

/-- The rows of the mixed game aaa (FCS) at bbb (non-FCS). -/
def exOutMixed : ReportOutput :=
  match processReport exTI exReport exBox with
  | .ok o => o
  | .error _ => default

/-- A week-2 game and one rushing row of that game, for exercising the
week cutoff of compile_season_stats. -/
def defaultGame : Game := default

def exGameW2 : Game :=
  { defaultGame with
    gameID := "g1"
    awayTeamName := "T"
    homeTeamName := "U"
    weekPlayed := 2
    winningTeamName := "T"
    losingTeamName := "U"
    winningTeamScore := 21
    losingTeamScore := 7 }

def exRushW2 : RushRow :=
  { gameID := "g1", playerName := "P", teamName := "T", carries := 7,
    rushingYards := 50, twentyPlusYardCarries := 1, longestRush := 20,
    rushingTouchdowns := 1 }

/-- A box-score body with only one Passing section line. -/
def exLinesBad : List String :=
  ["2024 Alpha St at 2024 Beta", "Final - OT", "Alpha 7 10 17", "Beta 3 13 16",
   "Rushing", "Rushing", "Receiving", "Receiving", "Passing",
   "Defensive", "Defensive", "Field Goals", "Field Goals"]

/-- A box-score body with every section label exactly twice. -/
def exLinesGood : List String :=
  ["2024 Alpha St at 2024 Beta", "Final - 1st 2nd 3rd 4th", "Alpha 7 10 17",
   "Beta 3 13 16", "Rushing", "Rushing", "Receiving", "Receiving", "Passing",
   "Passing", "Defensive", "Defensive", "Field Goals", "Field Goals"]

/-- Oracle output rows with tied leading ranking_points, the literal
exemplar of the tie-plateau rule. -/
def exOracleRows : List OracleRow :=
  [{ name := "A", rank := 1, ranking_points := 100 },
   { name := "B", rank := 2, ranking_points := 100 },
   { name := "C", rank := 3, ranking_points := 95 }]

/-- A constant ranking oracle over the exTI2 teams. -/
def exOracle : Nat → List OracleRow := fun _ =>
  [{ name := "ccc", rank := 1, ranking_points := 50 },
   { name := "bbb", rank := 2, ranking_points := 40 }]

/-- The rankings teams and week-1 column of the exTI2 table, as concrete
data for the blend checks. -/
def exTeams : List String := ["ccc", "bbb"]

def exWeek1 : String → Int := fun t => if t = "ccc" then 1 else 2

/-! ### Shared lemmas about the average-rank arithmetic -/

lemma avgFromCounts_nonneg (a e : ℕ) : 0 ≤ avgFromCounts a e := by
  unfold avgFromCounts
  positivity

/-- astype(int) of an average-method rank value, in Nat arithmetic:
truncating ahead + (size+1)/2 gives ahead plus the floored half. -/
lemma pyInt_avgFromCounts (a e : ℕ) :
    pyInt (avgFromCounts a e) = (a : ℤ) + ((e + 1) / 2 : ℕ) := by
  unfold pyInt
  rw [if_pos (avgFromCounts_nonneg a e)]
  unfold avgFromCounts
  have h1 : (a : ℚ) + ((e : ℚ) + 1) / 2 = (((e + 1 : ℕ) : ℤ) : ℚ) / ((2 : ℕ) : ℚ) + ((a : ℤ) : ℚ) := by
    push_cast
    ring
  rw [h1, Int.floor_add_int, Rat.floor_intCast_div_natCast]
  have h2 : (((e + 1) / 2 : ℕ) : ℤ) = ((e + 1 : ℕ) : ℤ) / ((2 : ℕ) : ℤ) := Int.ofNat_ediv _ _
  omega

/-- Strict monotonicity of truncated average ranks: a tie group that ends
no later than another group starts is ranked strictly ahead of it. -/
lemma pyInt_avgFromCounts_lt (a1 e1 a2 e2 : ℕ) (he1 : 1 ≤ e1) (he2 : 1 ≤ e2)
    (h : a1 + e1 ≤ a2) :
    pyInt (avgFromCounts a1 e1) < pyInt (avgFromCounts a2 e2) := by
  rw [pyInt_avgFromCounts, pyInt_avgFromCounts]
  have h1 : (e1 + 1) / 2 ≤ e1 := by omega
  have h2 : 1 ≤ (e2 + 1) / 2 := by omega
  omega

lemma length_filter_mono {α : Type} (xs : List α) (p q : α → Bool)
    (h : ∀ z, p z = true → q z = true) :
    (xs.filter p).length ≤ (xs.filter q).length := by
  induction xs with
  | nil => simp
  | cons z zs ih =>
    by_cases hp : p z = true
    · rw [List.filter_cons_of_pos hp, List.filter_cons_of_pos (h z hp)]
      simpa using ih
    · rw [List.filter_cons_of_neg hp]
      by_cases hq : q z = true
      · rw [List.filter_cons_of_pos hq]
        simp only [List.length_cons]
        omega
      · rw [List.filter_cons_of_neg hq]
        exact ih

lemma one_le_length_filter_eq (xs : List ℚ) (x : ℚ) (hx : x ∈ xs) :
    1 ≤ (xs.filter (fun y => y = x)).length := by
  have : x ∈ xs.filter (fun y => y = x) := by
    rw [List.mem_filter]
    exact ⟨hx, by simp⟩
  calc 1 ≤ 1 := le_refl 1
    _ ≤ (xs.filter (fun y => y = x)).length := List.length_pos.mpr (List.ne_nil_of_mem this)

/-- Splitting the weak-inequality count into the strict count and the tie
count (ascending direction). -/
lemma length_filter_lt_add_eq (xs : List ℚ) (x : ℚ) :
    (xs.filter (fun y => y < x)).length + (xs.filter (fun y => y = x)).length
      = (xs.filter (fun y => y ≤ x)).length := by
  induction xs with
  | nil => simp
  | cons z zs ih =>
    rcases lt_trichotomy z x with h | h | h
    · simp only [List.filter_cons, decide_eq_true_eq]
      rw [if_pos h, if_neg (ne_of_lt h), if_pos (le_of_lt h)]
      simp only [List.length_cons]
      omega
    · subst h
      simp only [List.filter_cons, decide_eq_true_eq]
      rw [if_neg (lt_irrefl z)]
      simp only [if_true]
      rw [if_pos (le_refl z)]
      simp only [List.length_cons]
      omega
    · simp only [List.filter_cons, decide_eq_true_eq]
      rw [if_neg (not_lt_of_gt h), if_neg (ne_of_gt h), if_neg (not_le.mpr h)]
      exact ih

/-- Splitting the weak-inequality count into the strict count and the tie
count (descending direction). -/
lemma length_filter_gt_add_eq (xs : List ℚ) (x : ℚ) :
    (xs.filter (fun y => x < y)).length + (xs.filter (fun y => y = x)).length
      = (xs.filter (fun y => x ≤ y)).length := by
  induction xs with
  | nil => simp
  | cons z zs ih =>
    rcases lt_trichotomy x z with h | h | h
    · simp only [List.filter_cons, decide_eq_true_eq]
      rw [if_pos h, if_neg (ne_of_gt h), if_pos (le_of_lt h)]
      simp only [List.length_cons]
      omega
    · have h0 : z = x := h.symm
      subst h0
      simp only [List.filter_cons, decide_eq_true_eq]
      rw [if_neg (lt_irrefl z)]
      simp only [if_true]
      rw [if_pos (le_refl z)]
      simp only [List.length_cons]
      omega
    · simp only [List.filter_cons, decide_eq_true_eq]
      rw [if_neg (not_lt_of_gt h), if_neg (ne_of_lt h), if_neg (not_le.mpr h)]
      exact ih

/-- Ascending strict order of values forces strict order of the truncated
average ranks, for values present in the column. -/
lemma pyInt_rankAscAvg_lt (xs : List ℚ) (x y : ℚ) (hx : x ∈ xs) (hy : y ∈ xs)
    (hxy : x < y) : pyInt (rankAscAvg xs x) < pyInt (rankAscAvg xs y) := by
  unfold rankAscAvg
  apply pyInt_avgFromCounts_lt
  · exact one_le_length_filter_eq xs x hx
  · exact one_le_length_filter_eq xs y hy
  · rw [length_filter_lt_add_eq]
    apply length_filter_mono
    intro z hz
    simp only [decide_eq_true_eq] at hz ⊢
    exact lt_of_le_of_lt hz hxy

/-- Descending strict order: strictly more points force a strictly better
(smaller) truncated average rank. -/
lemma pyInt_rankDescAvg_lt (xs : List ℚ) (x y : ℚ) (hx : x ∈ xs) (hy : y ∈ xs)
    (hxy : y < x) : pyInt (rankDescAvg xs x) < pyInt (rankDescAvg xs y) := by
  unfold rankDescAvg
  apply pyInt_avgFromCounts_lt
  · exact one_le_length_filter_eq xs x hx
  · exact one_le_length_filter_eq xs y hy
  · rw [length_filter_gt_add_eq]
    apply length_filter_mono
    intro z hz
    simp only [decide_eq_true_eq] at hz ⊢
    exact lt_of_lt_of_le hxy hz

/-! ### Helper lemmas about the report pipeline -/

lemma processReport_ok_inv {ti : List TeamRec} {r : ReportFields} {b : BoxScore}
    {out : ReportOutput} (h : processReport ti r b = .ok out) :
    ∃ aRec hRec wk, lookupTeam? ti r.awayTeam = some aRec ∧
      lookupTeam? ti r.homeTeam = some hRec ∧ validateWeek r.week = .ok wk ∧
      r.significance ∈ accepted_significance ∧
      b.awayTeamScore ≠ b.homeTeamScore ∧ out = buildOutput ti r b aRec hRec wk := by
  unfold processReport at h
  cases ha : lookupTeam? ti r.awayTeam with
  | none => simp [ha] at h
  | some aRec =>
    simp only [ha] at h
    cases hb : lookupTeam? ti r.homeTeam with
    | none => simp [hb] at h
    | some hRec =>
      simp only [hb] at h
      split_ifs at h with h1 h2 h3 h4
      all_goals
        cases hw : validateWeek r.week with
        | error e =>
          rw [hw] at h
          exact absurd h (by simp)
        | ok wk =>
          rw [hw] at h
          first
          | (injection h with h5
             exact ⟨aRec, hRec, wk, rfl, rfl, rfl, h1, h3, h5.symm⟩)
          | injection h

lemma mem_mkReturningRowsForTeam_teamName {rec : TeamRec} {gid t : String}
    {kr kry pr pry : Int} {row : ReturningRow}
    (h : row ∈ mkReturningRowsForTeam rec gid t kr kry pr pry) : row.teamName = t := by
  unfold mkReturningRowsForTeam at h
  split at h <;> simp only [List.mem_singleton, List.mem_cons, List.not_mem_nil, or_false] at h
  · subst h; rfl
  · rcases h with h | h <;> (subst h; rfl)

lemma mem_mkReturningRowsForTeam_tds {rec : TeamRec} {gid t : String}
    {kr kry pr pry : Int} {row : ReturningRow}
    (h : row ∈ mkReturningRowsForTeam rec gid t kr kry pr pry) :
    row.kickReturnTouchdowns = 0 ∧ row.puntReturnTouchdowns = 0 := by
  unfold mkReturningRowsForTeam at h
  split at h <;> simp only [List.mem_singleton, List.mem_cons, List.not_mem_nil, or_false] at h
  · subst h; exact ⟨rfl, rfl⟩
  · rcases h with h | h <;> (subst h; exact ⟨rfl, rfl⟩)

lemma mem_returningRows_of_buildOutput {ti : List TeamRec} {r : ReportFields}
    {b : BoxScore} {aRec hRec : TeamRec} {wk : Nat} {row : ReturningRow}
    (h : row ∈ (buildOutput ti r b aRec hRec wk).returningRows) :
    row.kickReturnTouchdowns = 0 ∧ row.puntReturnTouchdowns = 0 := by
  unfold buildOutput at h
  simp only [List.mem_filter, List.mem_append] at h
  rcases h.1 with hm | hm
  · exact mem_mkReturningRowsForTeam_tds hm
  · exact mem_mkReturningRowsForTeam_tds hm

lemma game_tds_of_buildOutput (ti : List TeamRec) (r : ReportFields) (b : BoxScore)
    (aRec hRec : TeamRec) (wk : Nat) :
    (buildOutput ti r b aRec hRec wk).game.awayTeamKickReturnTouchdowns = 0 ∧
    (buildOutput ti r b aRec hRec wk).game.homeTeamKickReturnTouchdowns = 0 ∧
    (buildOutput ti r b aRec hRec wk).game.awayTeamPuntReturnTouchdowns = 0 ∧
    (buildOutput ti r b aRec hRec wk).game.homeTeamPuntReturnTouchdowns = 0 :=
  ⟨rfl, rfl, rfl, rfl⟩

lemma processAll_ok_mem {ti : List TeamRec} {reports : List (ReportFields × BoxScore)}
    {outs : List ReportOutput} (h : processAll ti reports = .ok outs) :
    ∀ o ∈ outs, ∃ rb ∈ reports, processReport ti rb.1 rb.2 = .ok o := by
  induction reports generalizing outs with
  | nil =>
    unfold processAll at h
    cases h
    intro o ho
    exact absurd ho (List.not_mem_nil o)
  | cons rb rest ih =>
    unfold processAll at h
    cases hr : processReport ti rb.1 rb.2 with
    | error e => rw [hr] at h; exact absurd h (by simp [Bind.bind, Except.bind])
    | ok o0 =>
      rw [hr] at h
      cases hrest : processAll ti rest with
      | error e => rw [hrest] at h; exact absurd h (by simp [Bind.bind, Except.bind])
      | ok os0 =>
        rw [hrest] at h
        simp only [Bind.bind, Except.bind, Except.ok.injEq] at h
        subst h
        intro o ho
        rcases List.mem_cons.mp ho with h0 | h0
        · exact ⟨rb, List.mem_cons_self rb rest, by rw [h0]; exact hr⟩
        · rcases ih hrest o h0 with ⟨rb1, hrb1, hp1⟩
          exact ⟨rb1, List.mem_cons_of_mem rb hrb1, hp1⟩

lemma read_game_files_ok_inv {ti : List TeamRec}
    {reports : List (ReportFields × BoxScore)} {out : FilesOutput}
    (h : read_game_files ti reports = .ok out) :
    ∃ outs, processAll ti reports = .ok outs ∧
      out.games = outs.map (fun o => o.game) ∧
      out.returningRows = (outs.map (fun o => o.returningRows)).flatten ∧
      (outs.map (fun o => o.game)).any
        (fun g => g.winningTeamScore ≤ g.losingTeamScore) = false := by
  unfold read_game_files at h
  cases hpa : processAll ti reports with
  | error e => rw [hpa] at h; exact absurd h (by simp [Bind.bind, Except.bind])
  | ok outs =>
    rw [hpa] at h
    simp only [Bind.bind, Except.bind] at h
    split_ifs at h with hc
    cases h
    exact ⟨outs, rfl, rfl, rfl, by simpa using hc⟩

/-- Summing a column that is identically zero gives zero. -/
lemma intColSum_map_zero {α : Type} (l : List α) (f : α → Int)
    (h : ∀ x ∈ l, f x = 0) : intColSum (l.map f) = 0 := by
  unfold intColSum
  apply List.sum_eq_zero
  intro y hy
  rcases List.mem_map.mp hy with ⟨x, hx, rfl⟩
  exact h x hx

/-- Every game row of a successful read_game_files run comes from
buildOutput, hence carries the placeholder return-touchdown zeros. -/
lemma read_game_files_game_tds {ti : List TeamRec}
    {reports : List (ReportFields × BoxScore)} {out : FilesOutput}
    (hok : read_game_files ti reports = .ok out) :
    ∀ g ∈ out.games, g.awayTeamKickReturnTouchdowns = 0 ∧
      g.homeTeamKickReturnTouchdowns = 0 ∧ g.awayTeamPuntReturnTouchdowns = 0 ∧
      g.homeTeamPuntReturnTouchdowns = 0 := by
  rcases read_game_files_ok_inv hok with ⟨outs, hpa, hgames, _, _⟩
  intro g hg
  rw [hgames] at hg
  rcases List.mem_map.mp hg with ⟨o, ho, rfl⟩
  rcases processAll_ok_mem hpa o ho with ⟨rb, _, hpo⟩
  rcases processReport_ok_inv hpo with ⟨aR, hR, wk, _, _, _, _, _, rfl⟩
  exact game_tds_of_buildOutput ti rb.1 rb.2 aR hR wk

/-- Every returning row of a successful read_game_files run carries the
placeholder return-touchdown zeros. -/
lemma read_game_files_row_tds {ti : List TeamRec}
    {reports : List (ReportFields × BoxScore)} {out : FilesOutput}
    (hok : read_game_files ti reports = .ok out) :
    ∀ row ∈ out.returningRows,
      row.kickReturnTouchdowns = 0 ∧ row.puntReturnTouchdowns = 0 := by
  rcases read_game_files_ok_inv hok with ⟨outs, hpa, _, hret, _⟩
  intro row hrow
  rw [hret] at hrow
  rcases List.mem_flatten.mp hrow with ⟨l, hl, hrl⟩
  rcases List.mem_map.mp hl with ⟨o, ho, rfl⟩
  rcases processAll_ok_mem hpa o ho with ⟨rb, _, hpo⟩
  rcases processReport_ok_inv hpo with ⟨aR, hR, wk, _, _, _, _, _, rfl⟩
  exact mem_returningRows_of_buildOutput hrl

/-! ### The claims -/

/-- Claim C3 (confirmed): a report whose parsed away and home scores are
equal fails validation with an error, producing no Game row; winner and
loser are otherwise derived by direct score comparison, and every game row
of a successfully returned games table satisfies winningTeamScore strictly
greater than losingTeamScore. -/
theorem games_have_strict_winner (ti : List TeamRec) (r : ReportFields) (b : BoxScore)
    (reports : List (ReportFields × BoxScore)) (out : FilesOutput)
    (heq : b.awayTeamScore = b.homeTeamScore)
    (hok : read_game_files ti reports = .ok out) :
    (∃ e, processReport ti r b = .error e) ∧
    ∀ g ∈ out.games, g.losingTeamScore < g.winningTeamScore := by
  constructor
  · cases hp : processReport ti r b with
    | error e => exact ⟨e, rfl⟩
    | ok o =>
      rcases processReport_ok_inv hp with ⟨_, _, _, _, _, _, _, hne, _⟩
      exact absurd heq hne
  · intro g hg
    rcases read_game_files_ok_inv hok with ⟨outs, _, hgames, _, hany⟩
    rw [hgames] at hg
    have h1 := List.any_eq_false.mp hany g hg
    simp only [decide_eq_true_eq] at h1
    exact lt_of_not_ge h1

/-- Claim C3 witness: the tied 10-10 report is rejected, and the games of
the one-report run all have a strict winner. -/
theorem games_have_strict_winner_witness :
    exBoxTied.awayTeamScore = exBoxTied.homeTeamScore ∧
    (∃ e, processReport exTI exReport exBoxTied = .error e) ∧
    ∀ g ∈ exFilesOut.games, g.losingTeamScore < g.winningTeamScore :=
  ⟨rfl,
   (games_have_strict_winner exTI exReport exBoxTied exReports exFilesOut rfl rfl).1,
   (games_have_strict_winner exTI exReport exBoxTied exReports exFilesOut rfl rfl).2⟩

/-- Claim C8 counterexample: the code accepts the space-separated
"conference championship" and rejects the hyphenated
"conference-championship" that the claim enumerates, so the claimed
accepted set is wrong at that input. -/
theorem significance_hyphenated_rejected :
    "conference-championship" ∉ accepted_significance ∧
    "conference championship" ∈ accepted_significance ∧
    processReport exTI exReportCC exBox =
      .error ("Invalid significance value " ++ "conference-championship") :=
  ⟨by decide, by decide, rfl⟩

/-- Claim C8 (amended): the Significance header is accepted iff it is one
of non-conference, conference, conference championship (space-separated),
postseason; a report with any other significance string fails validation
with an error. -/
theorem significance_enum_space (ti : List TeamRec) (r : ReportFields) (b : BoxScore)
    (h : r.significance ∉ accepted_significance) :
    (∃ e, processReport ti r b = .error e) ∧
    ∀ s : String, s ∈ accepted_significance ↔
      (s = "non-conference" ∨ s = "conference" ∨ s = "conference championship" ∨
       s = "postseason") := by
  constructor
  · cases hp : processReport ti r b with
    | error e => exact ⟨e, rfl⟩
    | ok o =>
      rcases processReport_ok_inv hp with ⟨_, _, _, _, _, _, hmem, _, _⟩
      exact absurd hmem h
  · intro s
    unfold accepted_significance
    simp

/-- Claim C8 witness: the significance value playoff is outside the
accepted set and the report carrying it is rejected; the enumeration of
the accepted set. -/
theorem significance_enum_space_witness :
    "playoff" ∉ accepted_significance ∧
    (∃ e, processReport exTI exReportBadSig exBox = .error e) ∧
    ("conference championship" ∈ accepted_significance ↔
      ("conference championship" = "non-conference" ∨
       "conference championship" = "conference" ∨
       "conference championship" = "conference championship" ∨
       "conference championship" = "postseason")) :=
  ⟨by decide,
   (significance_enum_space exTI exReportBadSig exBox (by decide)).1,
   (significance_enum_space exTI exReportBadSig exBox (by decide)).2 "conference championship"⟩

/-- Claim C10 (confirmed): every game row and every returning row produced
by read_game_files has all kick/punt return-touchdown fields equal to the
hard-coded 0 placeholder, and consequently every season-level
return-touchdown total of compile_season_stats (the four team columns and
the player returning rows) is 0. -/
theorem return_touchdowns_are_zero (ti : List TeamRec)
    (reports : List (ReportFields × BoxScore)) (out : FilesOutput) (week : Nat)
    (t : String) (hok : read_game_files ti reports = .ok out) :
    (out.games.all (fun g => g.awayTeamKickReturnTouchdowns == 0 &&
        g.homeTeamKickReturnTouchdowns == 0 &&
        g.awayTeamPuntReturnTouchdowns == 0 &&
        g.homeTeamPuntReturnTouchdowns == 0)) = true ∧
    (out.returningRows.all (fun row => row.kickReturnTouchdowns == 0 &&
        row.puntReturnTouchdowns == 0)) = true ∧
    numKickReturnTouchdowns week out.games t = 0 ∧
    numPuntReturnTouchdowns week out.games t = 0 ∧
    numKickReturnTouchdownsAllowed week out.games t = 0 ∧
    numPuntReturnTouchdownsAllowed week out.games t = 0 ∧
    ((compileSeasonReturningStats out.returningRows).all
      (fun srow => srow.kickReturnTouchdowns == 0 &&
        srow.puntReturnTouchdowns == 0)) = true := by
  have hgame := read_game_files_game_tds hok
  have hrow := read_game_files_row_tds hok
  have hsub : ∀ g ∈ gamesUpToWeek week out.games, g ∈ out.games := by
    intro g hg
    exact (List.mem_filter.mp hg).1
  have hsubh : ∀ s : String, ∀ g ∈ (gamesUpToWeek week out.games).filter
      (fun g => g.homeTeamName == s), g ∈ out.games := by
    intro s g hg
    exact hsub g (List.mem_filter.mp hg).1
  have hsuba : ∀ s : String, ∀ g ∈ (gamesUpToWeek week out.games).filter
      (fun g => g.awayTeamName == s), g ∈ out.games := by
    intro s g hg
    exact hsub g (List.mem_filter.mp hg).1
  refine ⟨?_, ?_, ?_, ?_, ?_, ?_, ?_⟩
  · rw [List.all_eq_true]
    intro g hg
    rcases hgame g hg with ⟨e1, e2, e3, e4⟩
    simp [e1, e2, e3, e4]
  · rw [List.all_eq_true]
    intro row hr
    rcases hrow row hr with ⟨e1, e2⟩
    simp [e1, e2]
  · unfold numKickReturnTouchdowns
    rw [intColSum_map_zero _ _ (fun g hg => (hgame g (hsubh t g hg)).2.1),
      intColSum_map_zero _ _ (fun g hg => (hgame g (hsuba t g hg)).1)]
    rfl
  · unfold numPuntReturnTouchdowns
    rw [intColSum_map_zero _ _ (fun g hg => (hgame g (hsubh t g hg)).2.2.2),
      intColSum_map_zero _ _ (fun g hg => (hgame g (hsuba t g hg)).2.2.1)]
    rfl
  · unfold numKickReturnTouchdownsAllowed
    rw [intColSum_map_zero _ _ (fun g hg => (hgame g (hsubh t g hg)).1),
      intColSum_map_zero _ _ (fun g hg => (hgame g (hsuba t g hg)).2.1)]
    rfl
  · unfold numPuntReturnTouchdownsAllowed
    rw [intColSum_map_zero _ _ (fun g hg => (hgame g (hsubh t g hg)).2.2.1),
      intColSum_map_zero _ _ (fun g hg => (hgame g (hsuba t g hg)).2.2.2)]
    rfl
  · rw [List.all_eq_true]
    intro srow hs
    unfold compileSeasonReturningStats at hs
    rcases List.mem_map.mp hs with ⟨pt, hpt, rfl⟩
    have hk : intColSum ((returningRowsOfPair out.returningRows pt.1 pt.2).map
        (fun row => row.kickReturnTouchdowns)) = 0 :=
      intColSum_map_zero _ _ (fun row hr =>
        (hrow row (List.mem_filter.mp hr).1).1)
    have hp : intColSum ((returningRowsOfPair out.returningRows pt.1 pt.2).map
        (fun row => row.puntReturnTouchdowns)) = 0 :=
      intColSum_map_zero _ _ (fun row hr =>
        (hrow row (List.mem_filter.mp hr).1).2)
    simp [hk, hp]

/-- Claim C10 witness: the one-report run and its season totals at
cutoff 1 for team bbb. -/
theorem return_touchdowns_are_zero_witness :
    read_game_files exTI exReports = .ok exFilesOut ∧
    numKickReturnTouchdowns 1 exFilesOut.games "bbb" = 0 ∧
    numPuntReturnTouchdowns 1 exFilesOut.games "bbb" = 0 :=
  ⟨rfl,
   (return_touchdowns_are_zero exTI exReports exFilesOut 1 "bbb" rfl).2.2.1,
   (return_touchdowns_are_zero exTI exReports exFilesOut 1 "bbb" rfl).2.2.2.1⟩

/-- Claim C7 counterexample: the away team aaa of the example game belongs
to the FCS conference and its kick returner and punt returner coincide, so
the claim promises exactly one returning row for it carrying the box-score
return totals; read_game_files emits zero rows for that team (the FCS
filter drops them), so no sum over its rows can reproduce the team totals
(awayTeamKickReturns is 3). -/
theorem returning_rows_fcs_filtered :
    (lookupTeam? exTI "aaa").map
      (fun rec => rec.kickReturnerName == rec.puntReturnerName) = some true ∧
    isFCSTeam exTI "aaa" = true ∧
    (processReport exTI exReport exBox).map
      (fun o => (o.returningRows.filter (fun row => row.teamName == "aaa")).length) =
      Except.ok 0 ∧
    exBox.awayTeamKickReturns = 3 :=
  ⟨rfl, rfl, rfl, rfl⟩

/-- Claim C7 (amended): for a parsed game between two distinct teams, each
side whose conference is not the FCS sentinel — independently of the
conference of its opponent — has exactly the mkReturningRowsForTeam rows of
its reference record among the returning rows: one combined row when its
designated kick and punt returner coincide, two complementary rows
otherwise, each zeroed in the category its player did not perform; summing
kickReturns, puntReturns and their yards over those rows reproduces the
team-level box-score totals.  A team whose conference is FCS has no
returning rows at all: the FCS filter removes them. -/
theorem returner_attribution_non_fcs (ti : List TeamRec) (r : ReportFields)
    (b : BoxScore) (out : ReportOutput) (aRec hRec : TeamRec)
    (hok : processReport ti r b = .ok out)
    (ha : lookupTeam? ti r.awayTeam = some aRec)
    (hh : lookupTeam? ti r.homeTeam = some hRec)
    (hne : r.awayTeam ≠ r.homeTeam) :
    (isFCSTeam ti r.awayTeam = false →
      out.returningRows.filter (fun row => row.teamName == r.awayTeam) =
        mkReturningRowsForTeam aRec (gameIdOf r) r.awayTeam
          b.awayTeamKickReturns b.awayTeamKickReturnYards
          b.awayTeamPuntReturns b.awayTeamPuntReturnYards) ∧
    (isFCSTeam ti r.homeTeam = false →
      out.returningRows.filter (fun row => row.teamName == r.homeTeam) =
        mkReturningRowsForTeam hRec (gameIdOf r) r.homeTeam
          b.homeTeamKickReturns b.homeTeamKickReturnYards
          b.homeTeamPuntReturns b.homeTeamPuntReturnYards) ∧
    (∀ s : String, isFCSTeam ti s = true →
      out.returningRows.filter (fun row => row.teamName == s) = []) ∧
    (∀ (rec : TeamRec) (gid team : String) (kr kry pr pry : Int),
      ((rec.kickReturnerName = rec.puntReturnerName →
         mkReturningRowsForTeam rec gid team kr kry pr pry =
           [{ gameID := gid, playerName := rec.kickReturnerName, teamName := team,
              kickReturns := kr, kickReturnYards := kry, kickReturnTouchdowns := 0,
              puntReturns := pr, puntReturnYards := pry, puntReturnTouchdowns := 0 }]) ∧
       (rec.kickReturnerName ≠ rec.puntReturnerName →
         mkReturningRowsForTeam rec gid team kr kry pr pry =
           [{ gameID := gid, playerName := rec.kickReturnerName, teamName := team,
              kickReturns := kr, kickReturnYards := kry, kickReturnTouchdowns := 0,
              puntReturns := 0, puntReturnYards := 0, puntReturnTouchdowns := 0 },
            { gameID := gid, playerName := rec.puntReturnerName, teamName := team,
              kickReturns := 0, kickReturnYards := 0, kickReturnTouchdowns := 0,
              puntReturns := pr, puntReturnYards := pry, puntReturnTouchdowns := 0 }]) ∧
       ((mkReturningRowsForTeam rec gid team kr kry pr pry).map
           (fun row => row.kickReturns)).sum = kr ∧
       ((mkReturningRowsForTeam rec gid team kr kry pr pry).map
           (fun row => row.kickReturnYards)).sum = kry ∧
       ((mkReturningRowsForTeam rec gid team kr kry pr pry).map
           (fun row => row.puntReturns)).sum = pr ∧
       ((mkReturningRowsForTeam rec gid team kr kry pr pry).map
           (fun row => row.puntReturnYards)).sum = pry)) := by
  rcases processReport_ok_inv hok with ⟨aR, hR, wk, ha2, hh2, _, _, _, rfl⟩
  rw [ha] at ha2
  rw [hh] at hh2
  cases ha2
  cases hh2
  have hb : (buildOutput ti r b aRec hRec wk).returningRows =
      (mkReturningRowsForTeam aRec (gameIdOf r) r.awayTeam
          b.awayTeamKickReturns b.awayTeamKickReturnYards
          b.awayTeamPuntReturns b.awayTeamPuntReturnYards ++
        mkReturningRowsForTeam hRec (gameIdOf r) r.homeTeam
          b.homeTeamKickReturns b.homeTeamKickReturnYards
          b.homeTeamPuntReturns b.homeTeamPuntReturnYards).filter
        (fun row => !(isFCSTeam ti row.teamName)) := rfl
  have hAteam := fun row h =>
    @mem_mkReturningRowsForTeam_teamName aRec (gameIdOf r) r.awayTeam
      b.awayTeamKickReturns b.awayTeamKickReturnYards
      b.awayTeamPuntReturns b.awayTeamPuntReturnYards row h
  have hHteam := fun row h =>
    @mem_mkReturningRowsForTeam_teamName hRec (gameIdOf r) r.homeTeam
      b.homeTeamKickReturns b.homeTeamKickReturnYards
      b.homeTeamPuntReturns b.homeTeamPuntReturnYards row h
  refine ⟨?_, ?_, ?_, ?_⟩
  · intro hfa
    rw [hb, List.filter_filter, List.filter_append]
    have hnilH : List.filter
        (fun a => (a.teamName == r.awayTeam) && !(isFCSTeam ti a.teamName))
        (mkReturningRowsForTeam hRec (gameIdOf r) r.homeTeam
          b.homeTeamKickReturns b.homeTeamKickReturnYards
          b.homeTeamPuntReturns b.homeTeamPuntReturnYards) = [] := by
      apply List.filter_eq_nil_iff.mpr
      intro row hrow
      rw [hHteam row hrow]
      simp [Ne.symm hne]
    rw [hnilH, List.append_nil]
    apply List.filter_eq_self.mpr
    intro row hrow
    rw [hAteam row hrow]
    simp [hfa]
  · intro hfh
    rw [hb, List.filter_filter, List.filter_append]
    have hnilA : List.filter
        (fun a => (a.teamName == r.homeTeam) && !(isFCSTeam ti a.teamName))
        (mkReturningRowsForTeam aRec (gameIdOf r) r.awayTeam
          b.awayTeamKickReturns b.awayTeamKickReturnYards
          b.awayTeamPuntReturns b.awayTeamPuntReturnYards) = [] := by
      apply List.filter_eq_nil_iff.mpr
      intro row hrow
      rw [hAteam row hrow]
      simp [hne]
    rw [hnilA, List.nil_append]
    apply List.filter_eq_self.mpr
    intro row hrow
    rw [hHteam row hrow]
    simp [hfh]
  · intro s hs
    rw [hb, List.filter_filter]
    apply List.filter_eq_nil_iff.mpr
    intro row hrow
    simp only [Bool.and_eq_true, beq_iff_eq, Bool.not_eq_true', not_and]
    intro heq hfcs
    rw [heq, hs] at hfcs
    exact Bool.noConfusion hfcs
  · intro rec gid team kr kry pr pry
    unfold mkReturningRowsForTeam
    by_cases hs : rec.kickReturnerName = rec.puntReturnerName
    · rw [if_pos hs]
      refine ⟨fun _ => rfl, fun hcon => absurd hs hcon, ?_, ?_, ?_, ?_⟩ <;> simp
    · rw [if_neg hs]
      refine ⟨fun hcon => absurd hcon hs, fun _ => rfl, ?_, ?_, ?_, ?_⟩ <;> simp

/-- Claim C7 witness: the mixed game aaa (FCS) at bbb (non-FCS): the
non-FCS home team with distinct kick and punt returners gets exactly its
two attribution rows even though its opponent is an FCS team, and the FCS
away team gets no returning rows at all. -/
theorem returner_attribution_non_fcs_witness :
    isFCSTeam exTI "bbb" = false ∧ isFCSTeam exTI "aaa" = true ∧
    exOutMixed.returningRows.filter (fun row => row.teamName == "bbb") =
      mkReturningRowsForTeam
        { id := "bbb", whatifsportsName := "Bbb Wif", conferenceID := "ACC",
          initialRankingPoints := 80, kickReturnerName := "K Two",
          puntReturnerName := "P Two" }
        (gameIdOf exReport) "bbb" 2 40 2 12 ∧
    exOutMixed.returningRows.filter (fun row => row.teamName == "aaa") = [] :=
  ⟨rfl, rfl,
   (returner_attribution_non_fcs exTI exReport exBox exOutMixed _ _ rfl rfl rfl
     (by decide)).2.1 rfl,
   (returner_attribution_non_fcs exTI exReport exBox exOutMixed _ _ rfl rfl rfl
     (by decide)).2.2.1 "aaa" rfl⟩

/-- Claim C2 (confirmed): whenever any of the five section labels does not
occur exactly twice as a whole line, parse_whatifsports_box_score raises
the format error from the up-front cardinality assertions and yields no
parsed output; when every label occurs exactly twice, the cardinality
check passes. -/
theorem box_score_section_cardinality (lines lines2 : List String)
    (h : countExactLines lines "Rushing" ≠ 2 ∨ countExactLines lines "Receiving" ≠ 2 ∨
         countExactLines lines "Passing" ≠ 2 ∨ countExactLines lines "Defensive" ≠ 2 ∨
         countExactLines lines "Field Goals" ≠ 2)
    (h2 : countExactLines lines2 "Rushing" = 2 ∧ countExactLines lines2 "Receiving" = 2 ∧
          countExactLines lines2 "Passing" = 2 ∧ countExactLines lines2 "Defensive" = 2 ∧
          countExactLines lines2 "Field Goals" = 2) :
    (∃ e, parse_whatifsports_box_score lines = .error e) ∧
    assertBoxScoreSections lines2 = .ok () := by
  constructor
  · have herr : ∃ e, assertBoxScoreSections lines = .error e := by
      unfold assertBoxScoreSections
      by_cases c1 : countExactLines lines "Rushing" ≠ 2
      · rw [if_pos c1]; exact ⟨_, rfl⟩
      · rw [if_neg c1]
        by_cases c2 : countExactLines lines "Receiving" ≠ 2
        · rw [if_pos c2]; exact ⟨_, rfl⟩
        · rw [if_neg c2]
          by_cases c3 : countExactLines lines "Passing" ≠ 2
          · rw [if_pos c3]; exact ⟨_, rfl⟩
          · rw [if_neg c3]
            by_cases c4 : countExactLines lines "Defensive" ≠ 2
            · rw [if_pos c4]; exact ⟨_, rfl⟩
            · rw [if_neg c4]
              by_cases c5 : countExactLines lines "Field Goals" ≠ 2
              · rw [if_pos c5]; exact ⟨_, rfl⟩
              · exfalso
                rcases h with h | h | h | h | h <;> first
                  | exact c1 h
                  | exact c2 h
                  | exact c3 h
                  | exact c4 h
                  | exact c5 h
    rcases herr with ⟨e, he⟩
    refine ⟨e, ?_⟩
    unfold parse_whatifsports_box_score
    rw [he]
    rfl
  · rcases h2 with ⟨c1, c2, c3, c4, c5⟩
    unfold assertBoxScoreSections
    simp [c1, c2, c3, c4, c5]

/-- Claim C2 witness: the example body with a single Passing line is
rejected, the fully formed body passes the cardinality check. -/
theorem box_score_section_cardinality_witness :
    countExactLines exLinesBad "Passing" = 1 ∧
    (∃ e, parse_whatifsports_box_score exLinesBad = .error e) ∧
    assertBoxScoreSections exLinesGood = .ok () :=
  ⟨by decide,
   (box_score_section_cardinality exLinesBad exLinesGood
     (Or.inr (Or.inr (Or.inl (by decide)))) (by decide)).1,
   (box_score_section_cardinality exLinesBad exLinesGood
     (Or.inr (Or.inr (Or.inl (by decide)))) (by decide)).2⟩

/-- Claim C1 (code bug): compile_season_stats applies the week cutoff only
to the Games dataframe, never to the per-game player tables — at cutoff
week 1, the rushing row of a week-2 game is still summed into the player
season table and its player appears there, whereas the cutoff-respecting
sum dictated by the claim is 0. -/
theorem compile_season_stats_ignores_week_cutoff :
    exGameW2.weekPlayed = 2 ∧
    compileSeasonRushingStats 1 [exGameW2] [exRushW2] =
      [{ playerName := "P", teamName := "T", carries := 7, rushingYards := 50,
         twentyPlusYardCarries := 1, longestRush := 20, rushingTouchdowns := 1 }] ∧
    carriesUpToWeek 1 [exGameW2] [exRushW2] "P" "T" = 0 :=
  ⟨by decide, by decide, by decide⟩

/-- One unfolding step of the plateau scan on a cons cell. -/
lemma updateRanksGo_cons (r : OracleRow) (rest : List OracleRow) (cur : Int)
    (prev : Option ℚ) :
    updateRanksGo (r :: rest) cur prev =
      if prev = some r.ranking_points then
        { r with rank := cur } :: updateRanksGo rest cur prev
      else
        { r with rank := r.rank } :: updateRanksGo rest r.rank (some r.ranking_points) := rfl

lemma updateRanksGo_length (rows : List OracleRow) (cur : Int) (prev : Option ℚ) :
    (updateRanksGo rows cur prev).length = rows.length := by
  induction rows generalizing cur prev with
  | nil => rfl
  | cons r rest ih =>
    unfold updateRanksGo
    split_ifs <;> simp [ih]

/-- The adjacent-row behaviour of the plateau scan, for any accumulator
state: a row tied with its predecessor copies the (adjusted) rank of that
predecessor, any other row keeps its own rank. -/
lemma updateRanksGo_adj (rows : List OracleRow) (d : OracleRow) :
    ∀ (cur : Int) (prev : Option ℚ) (i : Nat), i + 1 < rows.length →
      (((rows.getD (i+1) d).ranking_points = (rows.getD i d).ranking_points →
        ((updateRanksGo rows cur prev).getD (i+1) d).rank =
          ((updateRanksGo rows cur prev).getD i d).rank) ∧
       ((rows.getD (i+1) d).ranking_points ≠ (rows.getD i d).ranking_points →
        ((updateRanksGo rows cur prev).getD (i+1) d).rank =
          (rows.getD (i+1) d).rank)) := by
  induction rows with
  | nil => intro cur prev i hi; simp at hi
  | cons r rest ih =>
    intro cur prev i hi
    cases rest with
    | nil => simp at hi
    | cons s rest2 =>
      cases i with
      | zero =>
        simp only [List.getD_cons_succ, List.getD_cons_zero]
        by_cases hp : prev = some r.ranking_points
        · rw [updateRanksGo_cons r (s :: rest2) cur prev, if_pos hp]
          by_cases hp2 : prev = some s.ranking_points
          · rw [updateRanksGo_cons s rest2 cur prev, if_pos hp2]
            simp only [List.getD_cons_succ, List.getD_cons_zero]
            exact ⟨fun _ => trivial,
              fun hne => absurd (Option.some.inj (hp.symm.trans hp2)).symm hne⟩
          · rw [updateRanksGo_cons s rest2 cur prev, if_neg hp2]
            simp only [List.getD_cons_succ, List.getD_cons_zero]
            refine ⟨fun heq => ?_, fun _ => trivial⟩
            exact absurd (by rw [heq]; exact hp) hp2
        · rw [updateRanksGo_cons r (s :: rest2) cur prev, if_neg hp]
          by_cases hp2 : s.ranking_points = r.ranking_points
          · rw [updateRanksGo_cons s rest2 r.rank (some r.ranking_points),
              if_pos (by rw [hp2])]
            simp only [List.getD_cons_succ, List.getD_cons_zero]
            exact ⟨fun _ => trivial, fun hne => absurd hp2 hne⟩
          · rw [updateRanksGo_cons s rest2 r.rank (some r.ranking_points),
              if_neg (fun hc => hp2 (Option.some.inj hc).symm)]
            simp only [List.getD_cons_succ, List.getD_cons_zero]
            exact ⟨fun heq => absurd heq hp2, fun _ => trivial⟩
      | succ i =>
        have hi2 : i + 1 < (s :: rest2).length := by
          simp only [List.length_cons] at hi ⊢
          omega
        simp only [List.getD_cons_succ]
        by_cases hp : prev = some r.ranking_points
        · rw [updateRanksGo_cons r (s :: rest2) cur prev, if_pos hp]
          simp only [List.getD_cons_succ]
          exact ih cur prev i hi2
        · rw [updateRanksGo_cons r (s :: rest2) cur prev, if_neg hp]
          simp only [List.getD_cons_succ]
          exact ih r.rank (some r.ranking_points) i hi2

lemma update_ranks_head (rows : List OracleRow) (d : OracleRow)
    (h : 0 < rows.length) :
    ((update_ranks_to_have_tied_ranks rows).getD 0 d).rank = (rows.getD 0 d).rank := by
  cases rows with
  | nil => simp at h
  | cons r rest =>
    unfold update_ranks_to_have_tied_ranks updateRanksGo
    rw [if_neg (by simp)]
    simp

/-- Claim C5 (confirmed): update_ranks_to_have_tied_ranks scans rows in
order and assigns every row whose ranking_points equal the previous row's
the same (adjusted) rank as that previous row, while all other rows keep
their original rank; on ranking_points [100, 100, 95] with raw ranks
[1, 2, 3] the adjusted ranks are [1, 1, 3]; and for weeks 6 and later the
create_rankings_df loop applies no plateau adjustment (the oracle rows are
used unmodified). -/
theorem tie_plateau_rule (rows : List OracleRow) (d : OracleRow) (i : Nat)
    (oracle : Nat → List OracleRow) (w : Nat)
    (hi : i + 1 < rows.length) (hw : 6 ≤ w) :
    ((update_ranks_to_have_tied_ranks rows).length = rows.length) ∧
    ((rows.getD (i+1) d).ranking_points = (rows.getD i d).ranking_points →
      ((update_ranks_to_have_tied_ranks rows).getD (i+1) d).rank =
        ((update_ranks_to_have_tied_ranks rows).getD i d).rank) ∧
    ((rows.getD (i+1) d).ranking_points ≠ (rows.getD i d).ranking_points →
      ((update_ranks_to_have_tied_ranks rows).getD (i+1) d).rank =
        (rows.getD (i+1) d).rank) ∧
    (0 < rows.length →
      ((update_ranks_to_have_tied_ranks rows).getD 0 d).rank = (rows.getD 0 d).rank) ∧
    ((update_ranks_to_have_tied_ranks exOracleRows).map (fun row => row.rank) =
      [1, 1, 3]) ∧
    oracleRowsForWeek oracle w = oracle w := by
  have hadj := updateRanksGo_adj rows d 1 none i hi
  refine ⟨updateRanksGo_length rows 1 none, hadj.1, hadj.2,
    fun h0 => update_ranks_head rows d h0, by decide, ?_⟩
  unfold oracleRowsForWeek
  rw [if_neg (by omega)]

/-- Claim C5 witness: the literal [100, 100, 95] exemplar at week 6. -/
theorem tie_plateau_rule_witness :
    (0 : Nat) + 1 < exOracleRows.length ∧
    (update_ranks_to_have_tied_ranks exOracleRows).map (fun row => row.rank) =
      [1, 1, 3] :=
  ⟨by decide,
   (tie_plateau_rule exOracleRows { name := "X", rank := 0, ranking_points := 0 }
     0 exOracle 6 (by decide) (by decide)).2.2.2.2.1⟩

/-- Claim C6 counterexample: with preseason points [100, 100, 100, 95] the
week1 column is [2, 2, 2, 4] (pandas average rank truncated to int): the
three teams tied at the top get rank 2, not rank 1, and the fourth team
gets 4 where the dense rank of its points is 2 — so week1 is not the dense
rank and ties do introduce gaps. -/
theorem week1_not_dense_rank :
    week1Rank exTI4 "t1" = 2 ∧ week1Rank exTI4 "t4" = 4 ∧
    denseRankDesc ((nonFCSTeams exTI4).map (initialPointsOf exTI4))
      (initialPointsOf exTI4 "t1") = 1 ∧
    denseRankDesc ((nonFCSTeams exTI4).map (initialPointsOf exTI4))
      (initialPointsOf exTI4 "t4") = 2 := by
  have e1 : week1Rank exTI4 "t1" = pyInt (avgFromCounts 0 3) := by
    unfold week1Rank rankDescAvg
    rw [show (((nonFCSTeams exTI4).map (initialPointsOf exTI4)).filter
        (fun y => initialPointsOf exTI4 "t1" < y)).length = 0 from by decide,
      show (((nonFCSTeams exTI4).map (initialPointsOf exTI4)).filter
        (fun y => y = initialPointsOf exTI4 "t1")).length = 3 from by decide]
  have e4 : week1Rank exTI4 "t4" = pyInt (avgFromCounts 3 1) := by
    unfold week1Rank rankDescAvg
    rw [show (((nonFCSTeams exTI4).map (initialPointsOf exTI4)).filter
        (fun y => initialPointsOf exTI4 "t4" < y)).length = 3 from by decide,
      show (((nonFCSTeams exTI4).map (initialPointsOf exTI4)).filter
        (fun y => y = initialPointsOf exTI4 "t4")).length = 1 from by decide]
  refine ⟨?_, ?_, by decide, by decide⟩
  · rw [e1, pyInt_avgFromCounts]
    decide
  · rw [e4, pyInt_avgFromCounts]
    decide

/-- Claim C6 (amended): the week1 column is the truncated pandas average
rank of initialRankingPoints descending: a team's value is the count of
teams with strictly more points plus the floored half of (tie-group size
plus one); teams with equal points share the same integer value, and
strictly more points give a strictly better (smaller) value — but the
numbering is not dense: gaps appear after tie groups, and a group of three
or more teams tied at the top does not receive rank 1. -/
theorem week1_truncated_average_rank (ti : List TeamRec) (t u : String)
    (ht : t ∈ nonFCSTeams ti) (hu : u ∈ nonFCSTeams ti) :
    week1Rank ti t =
      (((((nonFCSTeams ti).map (initialPointsOf ti)).filter
          (fun y => initialPointsOf ti t < y)).length : ℤ)) +
        (((((nonFCSTeams ti).map (initialPointsOf ti)).filter
          (fun y => y = initialPointsOf ti t)).length + 1) / 2 : ℕ) ∧
    (initialPointsOf ti t = initialPointsOf ti u →
      week1Rank ti t = week1Rank ti u) ∧
    (initialPointsOf ti u < initialPointsOf ti t →
      week1Rank ti t < week1Rank ti u) := by
  refine ⟨?_, ?_, ?_⟩
  · unfold week1Rank rankDescAvg
    exact pyInt_avgFromCounts _ _
  · intro he
    unfold week1Rank
    rw [he]
  · intro hlt
    unfold week1Rank
    exact pyInt_rankDescAvg_lt _ _ _ (List.mem_map.mpr ⟨t, ht, rfl⟩)
      (List.mem_map.mpr ⟨u, hu, rfl⟩) hlt

/-- Claim C6 witness: tied teams share a value, strictly more points rank
strictly better. -/
theorem week1_truncated_average_rank_witness :
    "t1" ∈ nonFCSTeams exTI4 ∧
    week1Rank exTI4 "t1" = week1Rank exTI4 "t2" ∧
    week1Rank exTI4 "t1" < week1Rank exTI4 "t4" :=
  ⟨by decide,
   (week1_truncated_average_rank exTI4 "t1" "t2" (by decide) (by decide)).2.1
     (by decide),
   (week1_truncated_average_rank exTI4 "t1" "t4" (by decide) (by decide)).2.2
     (by decide)⟩

/-- Claim C4 (confirmed): the rank columns of weeks 2-5 blend the week-1
seed with the merged (plateau-adjusted) oracle rank at weights
(seed, oracle) = (0.8, 0.2), (0.6, 0.4), (0.4, 0.6), (0.2, 0.8) and
re-rank the blended scores ascending (truncated pandas average rank), so a
strictly lower blended score yields a strictly better rank; the columns of
weeks 6-17 and the final column copy the oracle rank unblended. -/
theorem ranking_blend_schedule (teams : List String) (week1 : String → Int)
    (oracle : Nat → List OracleRow) (t t1 t2 : String) (w : Nat)
    (ht1 : t1 ∈ teams) (ht2 : t2 ∈ teams)
    (hblend : blendVal week1 (oracleRowsForWeek oracle 2) (8/10) (2/10) t1 <
      blendVal week1 (oracleRowsForWeek oracle 2) (8/10) (2/10) t2)
    (hw : 6 ≤ w) (hw2 : w ≤ 18) :
    (weekColumn teams week1 (oracleRowsForWeek oracle 2) 2 t =
      pyInt (rankAscAvg (blendCol teams week1 (oracleRowsForWeek oracle 2) (8/10) (2/10))
        (blendVal week1 (oracleRowsForWeek oracle 2) (8/10) (2/10) t))) ∧
    (weekColumn teams week1 (oracleRowsForWeek oracle 3) 3 t =
      pyInt (rankAscAvg (blendCol teams week1 (oracleRowsForWeek oracle 3) (6/10) (4/10))
        (blendVal week1 (oracleRowsForWeek oracle 3) (6/10) (4/10) t))) ∧
    (weekColumn teams week1 (oracleRowsForWeek oracle 4) 4 t =
      pyInt (rankAscAvg (blendCol teams week1 (oracleRowsForWeek oracle 4) (4/10) (6/10))
        (blendVal week1 (oracleRowsForWeek oracle 4) (4/10) (6/10) t))) ∧
    (weekColumn teams week1 (oracleRowsForWeek oracle 5) 5 t =
      pyInt (rankAscAvg (blendCol teams week1 (oracleRowsForWeek oracle 5) (2/10) (8/10))
        (blendVal week1 (oracleRowsForWeek oracle 5) (2/10) (8/10) t))) ∧
    (weekColumn teams week1 (oracleRowsForWeek oracle w) w t =
      oracleRankOf (oracle w) t) ∧
    (weekColumn teams week1 (oracleRowsForWeek oracle 2) 2 t1 <
      weekColumn teams week1 (oracleRowsForWeek oracle 2) 2 t2) := by
  refine ⟨rfl, rfl, rfl, rfl, ?_, ?_⟩
  · unfold weekColumn
    rw [if_neg (by omega), if_neg (by omega), if_neg (by omega), if_neg (by omega)]
    unfold oracleRowsForWeek
    rw [if_neg (by omega)]
  · exact pyInt_rankAscAvg_lt
      (blendCol teams week1 (oracleRowsForWeek oracle 2) (8/10) (2/10)) _ _
      (List.mem_map.mpr ⟨t1, ht1, rfl⟩) (List.mem_map.mpr ⟨t2, ht2, rfl⟩) hblend

/-- Claim C4 witness: on the two-team example, the week-2 blends are 1 and
2, so ccc ranks ahead of bbb, and week 6 copies the oracle rank. -/
theorem ranking_blend_schedule_witness :
    blendVal exWeek1 (oracleRowsForWeek exOracle 2) (8/10) (2/10) "ccc" <
      blendVal exWeek1 (oracleRowsForWeek exOracle 2) (8/10) (2/10) "bbb" ∧
    weekColumn exTeams exWeek1 (oracleRowsForWeek exOracle 2) 2 "ccc" <
      weekColumn exTeams exWeek1 (oracleRowsForWeek exOracle 2) 2 "bbb" ∧
    weekColumn exTeams exWeek1 (oracleRowsForWeek exOracle 6) 6 "ccc" =
      oracleRankOf (exOracle 6) "ccc" := by
  have hrows : oracleRowsForWeek exOracle 2 = exOracle 2 := by decide
  have hb : blendVal exWeek1 (oracleRowsForWeek exOracle 2) (8/10) (2/10) "ccc" <
      blendVal exWeek1 (oracleRowsForWeek exOracle 2) (8/10) (2/10) "bbb" := by
    rw [hrows]
    norm_num [blendVal, show exWeek1 "ccc" = 1 from by decide,
      show exWeek1 "bbb" = 2 from by decide,
      show oracleRankOf (exOracle 2) "ccc" = 1 from by decide,
      show oracleRankOf (exOracle 2) "bbb" = 2 from by decide]
  exact ⟨hb,
    (ranking_blend_schedule exTeams exWeek1 exOracle "ccc" "ccc" "bbb" 6
      (by decide) (by decide) hb (by omega) (by omega)).2.2.2.2.2,
    (ranking_blend_schedule exTeams exWeek1 exOracle "ccc" "ccc" "bbb" 6
      (by decide) (by decide) hb (by omega) (by omega)).2.2.2.2.1⟩

/-- Claim C9 counterexample: the create_rankings_df loop runs for weeks
2..18 and performs exactly one ranker invocation per iteration — 17
invocations in total, not the 18 the claim states. -/
theorem oracle_called_17_times :
    (create_rankings_df exTI2 exOracle).2.length = 17 ∧
    ¬(create_rankings_df exTI2 exOracle).2.length = 18 := by
  constructor <;> decide

/-- Claim C9 (amended): create_rankings_df invokes the external ranker
exactly once per oracle-derived column (weeks 2..17 and final): 17
synchronous invocations with arguments 1..17 in strictly increasing order,
each completed before the next iteration; the week-1 column is seeded
without an oracle call, so every team's trajectory has 18 columns from 17
invocations. -/
theorem oracle_one_call_per_loop_week (ti : List TeamRec)
    (oracle : Nat → List OracleRow) (p : String × List Int)
    (hp : p ∈ (create_rankings_df ti oracle).1) :
    (create_rankings_df ti oracle).2 = List.range' 1 17 ∧
    (create_rankings_df ti oracle).2.length = 17 ∧
    List.Pairwise (fun a b => a < b) (create_rankings_df ti oracle).2 ∧
    p.2.length = 18 := by
  have h2 : (create_rankings_df ti oracle).2 =
      rankingLoopWeeks.map (fun w => w - 1) := rfl
  rw [h2]
  refine ⟨by decide, by decide, by decide, ?_⟩
  have hp2 : p ∈ (nonFCSTeams ti).map (fun t =>
      (t, week1Rank ti t ::
        rankingLoopWeeks.map (fun w =>
          weekColumn (nonFCSTeams ti) (week1Rank ti)
            (oracleRowsForWeek oracle w) w t))) := hp
  rcases List.mem_map.mp hp2 with ⟨t, _, rfl⟩
  simp [rankingLoopWeeks]

/-- Claim C9 witness: the trajectory of team ccc has 18 columns while the
invocation trace has 17 entries. -/
theorem oracle_one_call_per_loop_week_witness :
    ("ccc", week1Rank exTI2 "ccc" ::
        rankingLoopWeeks.map (fun w =>
          weekColumn (nonFCSTeams exTI2) (week1Rank exTI2)
            (oracleRowsForWeek exOracle w) w "ccc")) ∈
      (create_rankings_df exTI2 exOracle).1 ∧
    (create_rankings_df exTI2 exOracle).2.length = 17 :=
  ⟨List.mem_map.mpr ⟨"ccc", by decide, rfl⟩,
   (oracle_one_call_per_loop_week exTI2 exOracle _
     (List.mem_map.mpr ⟨"ccc", by decide, rfl⟩)).2.1⟩

end CFB
